import Mathlib

/-!
The plugin ABI header `cq.h` of CoolQ-Golang-SDK.

`cq.h` contains no executable code: it is two macro definitions and 35 lines
that use them.  What the header *does* is decided by the C preprocessor, so the
embedding below is

* `lex`        : C source text  →  preprocessing tokens,
* `substitute` : ISO C macro substitution (parameters, `__VA_ARGS__`, `##`),
* `expandLine` : replacement of `CQEVENT` and of a `CQAPI( ... )` invocation,
* `parseDecl`  : the declarator forms the header uses
                 (`T [__stdcall] f(params)` and `T (__stdcall *f)(params)`),
* `parseParams`: a C parameter list.

The header text is kept verbatim (`cq_h`), and every statement is about what
the pipeline computes from that text.
-/

namespace CQ

/-- A preprocessing token (identifier or punctuator), kept as its spelling. -/
abbrev Token := String

/-! ## Lexing -/

/-- Characters that may occur in an identifier (extended characters included). -/
def isIdentChar (c : Char) : Bool :=
  c.isAlphanum || c == '_' || decide (128 ≤ c.toNat)

/-- Close the identifier being read (held reversed in `cur`), if any. -/
def flush (cur : List Char) (acc : List Token) : List Token :=
  match cur with
  | [] => acc
  | _ :: _ => String.mk cur.reverse :: acc

/-- Add a punctuator; a `#` directly after a `#` makes the `##` operator. -/
def pushPunct (c : Char) (acc : List Token) : List Token :=
  match acc with
  | t :: rest => if c == '#' && t == "#" then "##" :: rest else String.mk [c] :: acc
  | [] => [String.mk [c]]

/-- Lexer loop: `cur` is the identifier being read, `acc` the tokens so far
(both reversed), `slash` tells that the previous character was a `/`.
A `//` ends the line. -/
def lexAux : List Char → List Char → List Token → Bool → List Token
  | [], cur, acc, slash =>
      (if slash then pushPunct '/' (flush cur acc) else flush cur acc).reverse
  | c :: cs, cur, acc, slash =>
      if c == '/' then
        if slash then (flush cur acc).reverse
        else lexAux cs [] (flush cur acc) true
      else
        let acc1 := if slash then pushPunct '/' acc else acc
        if isIdentChar c then lexAux cs (c :: cur) acc1 false
        else if c.isWhitespace then lexAux cs [] (flush cur acc1) false
        else lexAux cs [] (pushPunct c (flush cur acc1)) false

/-- Tokens of one line of C source. -/
def lex (s : String) : List Token := lexAux s.data [] [] false

/-! ## The header text -/

/-- The replacement list of the object-like macro of cq.h line 4,
`#define CQEVENT extern int32_t __stdcall`. -/
def CQEVENT : List Token := lex "extern int32_t __stdcall"

/-- A function-like macro whose parameter list ends in `...`. -/
structure FnMacro where
  /-- The named parameters, in order. -/
  params : List Token
  /-- The replacement list. -/
  body : List Token

/-- The function-like macro of cq.h lines 6-8, `#define CQAPI(RetType, Name, ...)`
with the two continued lines of its replacement list. -/
def CQAPI : FnMacro where
  params := ["RetType", "Name"]
  body :=
    lex "    RetType(__stdcall *Name##_Ptr)(int32_t ac, __VA_ARGS__); " ++
    lex "    RetType Name(__VA_ARGS__)"

/-- Lines 10 to 47 of cq.h, verbatim (lines 1-9 are the two includes and the
two macro definitions above). -/
def cq_h : List String :=
  [ "extern char *__stdcall AppInfo();",
    "//events",
    "CQEVENT Initialize(int32_t p0);",
    "CQEVENT EVENT_ON_ENABLE();",
    "",
    "//apis",
    "CQAPI(int32_t, CQ_addLog, int32_t priority, char *type, char *content);",
    "CQAPI(int32_t, CQ_sendPrivateMsg, int64_t QQ, char *msg);",
    "CQAPI(int32_t, CQ_sendGroupMsg, int64_t GroupNum, char *msg);",
    "CQAPI(int32_t, CQ_sendDiscussMsg, int64_t DiscussNum, char *msg);",
    "CQAPI(int32_t, CQ_sendLike, int64_t QQ);",
    "CQAPI(int32_t, CQ_sendLikeV2, int64_t QQ, int32_t times);",
    "CQAPI(char *, CQ_getCookies);",
    "CQAPI(char *, CQ_getRecord, char *file, char *outformat);",
    "CQAPI(int32_t, CQ_getCsrfToken);",
    "CQAPI(char *, CQ_getAppDirectory);",
    "CQAPI(int64_t, CQ_getLoginQQ);",
    "CQAPI(char *, CQ_getLoginNick);",
    "CQAPI(int32_t, CQ_setGroupKick, int64_t GroupNum, int64_t QQID, int32_t RejectNextTime);",
    "CQAPI(int32_t, CQ_setGroupBan, int64_t GroupNum, int64_t QQ, int64_t BanTime);",
    "CQAPI(int32_t, CQ_setGroupAdmin, int64_t GroupNum, int64_t QQID, int32_t SetAdmin);",
    "CQAPI(int32_t, CQ_setGroupSpecialTitle, int64_t GroupNum, int64_t QQID, char *Title, int64_t TimeOut);",
    "CQAPI(int32_t, CQ_setGroupWholeBan, int64_t GroupNum, int32_t SetBan);",
    "CQAPI(int32_t, CQ_setGroupAnonymousBan, int64_t GroupNum, char *匿名, int64_t BanTime);",
    "CQAPI(int32_t, CQ_setGroupAnonymous, int64_t GroupNum, int32_t 开启匿名);",
    "CQAPI(int32_t, CQ_setGroupCard, int64_t GroupNum, int64_t QQID, char *新名片_昵称);",
    "CQAPI(int32_t, CQ_setGroupLeave, int64_t GroupNum, int32_t 是否解散);",
    "CQAPI(int32_t, CQ_setDiscussLeave, int64_t DiscussNum);",
    "CQAPI(int32_t, CQ_setFriendAddRequest, char *请求反馈标识, int32_t FbType, char *remark);",
    "CQAPI(int32_t, CQ_setGroupAddRequest, char *请求反馈标识, int32_t ReqType, int32_t FbType);",
    "CQAPI(int32_t, CQ_setGroupAddRequestV2, char *请求反馈标识, int32_t ReqType, int32_t FbType, char *reason);",
    "CQAPI(int32_t, CQ_setFatal, char *errmsg);",
    "CQAPI(char *, CQ_getGroupMemberInfo, int64_t GroupNum, int64_t QQID);",
    "CQAPI(char *, CQ_getGroupMemberInfoV2, int64_t GroupNum, int64_t QQID, int32_t 不使用缓存);",
    "CQAPI(char *, CQ_getStrangerInfo, int64_t QQID, int32_t 不使用缓存);",
    "CQAPI(char *, CQ_getGroupMemberList, int64_t GroupNum);",
    "CQAPI(char *, CQ_getGroupList, int32_t AuthCode);",
    "CQAPI(int32_t, CQ_deleteMsg, int64_t MsgId);" ]

/-! ## Macro replacement (ISO C 6.10.3) -/

/-- The tokens up to the `)` that closes a parenthesis already opened
(`depth` counts the ones opened since), and the tokens after that `)`.
`none` when the parenthesis is never closed. -/
def untilClose : List Token → Nat → Option (List Token × List Token)
  | [], _ => none
  | t :: ts, depth =>
      if t == ")" then
        match depth with
        | 0 => some ([], ts)
        | d + 1 => (untilClose ts d).map fun r => (t :: r.1, r.2)
      else if t == "(" then
        (untilClose ts (depth + 1)).map fun r => (t :: r.1, r.2)
      else
        (untilClose ts depth).map fun r => (t :: r.1, r.2)

/-- Split at the commas that are not inside parentheses.  `cur` is the piece
being read, reversed.  The empty token list is one empty piece. -/
def splitCommas : List Token → Nat → List Token → List (List Token)
  | [], _, cur => [cur.reverse]
  | t :: ts, depth, cur =>
      if t == "," && depth == 0 then cur.reverse :: splitCommas ts 0 []
      else if t == "(" then splitCommas ts (depth + 1) (t :: cur)
      else if t == ")" then splitCommas ts (depth - 1) (t :: cur)
      else splitCommas ts depth (t :: cur)

/-- The arguments of an invocation bound to the macro's parameters: the named
parameters take the leading arguments, `__VA_ARGS__` takes the remaining ones
together with the commas that separate them (6.10.3 p12).  When the invocation
has no further argument, `__VA_ARGS__` stands for no tokens; nothing in the
replacement list is removed on that account. -/
def bindArgs (m : FnMacro) (args : List (List Token)) : List (Token × List Token) :=
  m.params.zip args ++
    [("__VA_ARGS__", List.intercalate [","] (args.drop m.params.length))]

/-- What a token of the replacement list stands for: the argument when it is a
parameter, itself otherwise. -/
def operand (env : List (Token × List Token)) (t : Token) : List Token :=
  match env.lookup t with
  | some r => r
  | none => [t]

/-- The `##` operator (6.10.3.3): the last token of the left operand and the
first of the right one are concatenated; an empty operand is a placemarker. -/
def paste (l r : List Token) : List Token :=
  match l.getLast?, r with
  | some a, b :: rs => l.dropLast ++ (a ++ b) :: rs
  | _, _ => l ++ r

/-- Substitution of the arguments in a replacement list.  `out` is what has
been produced before the current operand `prev`; `pasting` tells that a `##`
has just been read. -/
def substituteAux (env : List (Token × List Token)) :
    List Token → Bool → List Token → List Token → List Token
  | [], _, out, prev => out ++ prev
  | t :: ts, pasting, out, prev =>
      if t == "##" then substituteAux env ts true out prev
      else if pasting then substituteAux env ts false out (paste prev (operand env t))
      else substituteAux env ts false (out ++ prev) (operand env t)

/-- The replacement list of `m` with the arguments `args` substituted. -/
def substitute (m : FnMacro) (args : List (List Token)) : List Token :=
  substituteAux (bindArgs m args) m.body false [] []

/-- Macro replacement in one line of the header: a leading `CQEVENT` is
replaced by its replacement list, a leading `CQAPI( ... )` by the substituted
replacement list of `CQAPI`.  (The header uses its macros only in that
position, and no argument contains a macro name.) -/
def expandLine (toks : List Token) : List Token :=
  match toks with
  | [] => []
  | t :: ts =>
      if t == "CQEVENT" then CQEVENT ++ ts
      else if t == "CQAPI" then
        match ts with
        | p :: rest =>
            if p == "(" then
              match untilClose rest 0 with
              | some r => substitute CQAPI (splitCommas r.1 0 []) ++ r.2
              | none => toks
            else toks
        | [] => toks
      else toks

/-! ## Declarations -/

/-- A parameter declaration: the tokens of its type and its name, if named. -/
structure Param where
  /-- Type tokens, e.g. `char *`. -/
  ty : List Token
  /-- The declared identifier. -/
  name : Option Token
  deriving DecidableEq, Repr

/-- A function declaration or a pointer-to-function declaration. -/
structure Decl where
  /-- Declared with the storage class that gives external linkage. -/
  external : Bool
  /-- Tokens of the return type. -/
  ret : List Token
  /-- The declarator carries `__stdcall`. -/
  stdcall : Bool
  /-- The declarator is `( * name )`: a function-pointer slot. -/
  pointer : Bool
  /-- The declared identifier. -/
  name : Token
  /-- The tokens between the parentheses of the parameter list. -/
  paramToks : List Token
  deriving DecidableEq, Repr

/-- An identifier (as opposed to a punctuator or a number). -/
def isIdent (t : Token) : Bool :=
  match t.data with
  | c :: _ => isIdentChar c && !c.isDigit
  | [] => false

/-- Split a line into its declarations, each ended by `;`.  `cur` is the
declaration being read, reversed. -/
def splitSemis : List Token → List Token → List (List Token)
  | [], cur =>
      match cur with
      | [] => []
      | _ :: _ => [cur.reverse]
  | t :: ts, cur =>
      if t == ";" then cur.reverse :: splitSemis ts []
      else splitSemis ts (t :: cur)

/-- The declarator inside `( ... )` of a function-pointer declaration:
`__stdcall * name` or `* name`. -/
def parsePtrDeclarator (toks : List Token) : Option (Bool × Token) :=
  match toks with
  | [cc, star, n] =>
      if cc == "__stdcall" && star == "*" && isIdent n then some (true, n) else none
  | [star, n] =>
      if star == "*" && isIdent n then some (false, n) else none
  | _ => none

/-- What stands before the parameter list of a function declaration:
return type, optional `__stdcall`, name.  The list is given reversed. -/
def parseFnHead (rev : List Token) : Option (List Token × Bool × Token) :=
  match rev with
  | n :: cc :: r :: rest =>
      if !isIdent n then none
      else if cc == "__stdcall" then some ((r :: rest).reverse, true, n)
      else some ((cc :: r :: rest).reverse, false, n)
  | [n, r] => if isIdent n && r != "__stdcall" then some ([r], false, n) else none
  | _ => none

/-- One declaration (its tokens without the closing `;`). -/
def parseDecl (toks : List Token) : Option Decl :=
  let ext := toks.head? == some "extern"
  let body := if ext then toks.tail else toks
  let pre := body.takeWhile (fun t => t != "(")
  match body.dropWhile (fun t => t != "(") with
  | [] => none
  | _ :: inner =>
      if inner.head? == some "__stdcall" || inner.head? == some "*" then
        -- `ret ( __stdcall * name ) ( params )`
        match untilClose inner 0 with
        | some (dtor, q :: after) =>
            match parsePtrDeclarator dtor, untilClose after 0 with
            | some (cc, n), some (ps, []) =>
                if q == "(" && !pre.isEmpty then
                  some { external := ext, ret := pre, stdcall := cc, pointer := true,
                         name := n, paramToks := ps }
                else none
            | _, _ => none
        | _ => none
      else
        -- `ret [__stdcall] name ( params )`
        match parseFnHead pre.reverse, untilClose inner 0 with
        | some (r, cc, n), some (ps, []) =>
            some { external := ext, ret := r, stdcall := cc, pointer := false,
                   name := n, paramToks := ps }
        | _, _ => none

/-- One parameter declaration: a type followed by an identifier, or a type
alone.  There is no empty parameter declaration. -/
def parseParam (seg : List Token) : Option Param :=
  match seg.reverse with
  | [] => none
  | [t] => if isIdent t then some { ty := [t], name := none } else none
  | n :: t :: rest =>
      if isIdent n then some { ty := (t :: rest).reverse, name := some n }
      else some { ty := seg, name := none }

/-- Every piece is a parameter declaration. -/
def parseEach : List (List Token) → Option (List Param)
  | [] => some []
  | seg :: segs =>
      match parseParam seg, parseEach segs with
      | some p, some ps => some (p :: ps)
      | _, _ => none

/-- A parameter list (C grammar: `parameter-declaration` separated by commas);
the empty list is the declarator `()`.  `none` when the tokens are not a
parameter list. -/
def parseParams (toks : List Token) : Option (List Param) :=
  match toks with
  | [] => some []
  | _ :: _ => parseEach (splitCommas toks 0 [])

/-- The parameters a declaration declares, when its parameter list is
well formed. -/
def Decl.params (d : Decl) : Option (List Param) := parseParams d.paramToks

/-- The types of the parameters, in order. -/
def Decl.paramTypes (d : Decl) : Option (List (List Token)) :=
  d.params.map fun ps => ps.map Param.ty

/-- The declarations one header line makes after macro replacement
(`none` for a piece that is not a declaration). -/
def declsOfLine (s : String) : List (Option Decl) :=
  (splitSemis (expandLine (lex s)) []).map parseDecl

/-- The header lines that invoke `CQAPI`. -/
def apiLines : List String := cq_h.filter fun s => (lex s).head? == some "CQAPI"

/-- The header lines that use `CQEVENT`. -/
def eventLines : List String := cq_h.filter fun s => (lex s).head? == some "CQEVENT"

/-- All declarations of the header, in order. -/
def allDecls : List (Option Decl) := (cq_h.map declsOfLine).flatten

/-- What one `CQAPI` line declares: the function-pointer slot and the stub. -/
structure Api where
  /-- The declaration `RetType (__stdcall *Name_Ptr)(...)`. -/
  slot : Decl
  /-- The declaration `RetType Name(...)`. -/
  stub : Decl
  deriving DecidableEq, Repr

/-- The two declarations of a line, when the line makes exactly two. -/
def apiOfLine (s : String) : Option Api :=
  match declsOfLine s with
  | [some a, some b] => some { slot := a, stub := b }
  | _ => none

/-- The API table: one entry for each `CQAPI` line that makes two declarations. -/
def apis : List Api := apiLines.filterMap apiOfLine

/-- The declarations of the lines that use `CQEVENT`. -/
def eventDecls : List (Option Decl) := (eventLines.map declsOfLine).flatten

/-- The declarations with external linkage: the entry points the plugin
exports to the host. -/
def externDecls : List Decl := (allDecls.filterMap id).filter fun d => d.external

/-- The API named `n`, if the table has it. -/
def findApi (n : Token) : Option Api := apis.find? fun a => a.stub.name == n

/-- The parameter `int32_t ac` that `CQAPI` puts in front of the slot's list. -/
def acParam : Param := { ty := ["int32_t"], name := some "ac" }

/-- The three parameter and return types of the interface. -/
def int32_t : List Token := ["int32_t"]

/-- The 64-bit integer type. -/
def int64_t : List Token := ["int64_t"]

/-- The text buffer type `char *`. -/
def charPtr : List Token := ["char", "*"]

/-- The name `t` begins with the characters of `p`. -/
def beginsWith (p t : Token) : Bool := p.data.isPrefixOf t.data

/-- Every parameter declaration that occurs in the parameter list of `d`:
the non-empty pieces between the commas, parsed one by one. -/
def Decl.declaredParams (d : Decl) : List (Option Param) :=
  ((splitCommas d.paramToks 0 []).filter fun seg => !seg.isEmpty).map parseParam

/-- The ten moderation APIs. -/
def moderationApis : List Token :=
  ["CQ_setGroupKick", "CQ_setGroupBan", "CQ_setGroupAdmin", "CQ_setGroupSpecialTitle",
   "CQ_setGroupWholeBan", "CQ_setGroupAnonymousBan", "CQ_setGroupAnonymous",
   "CQ_setGroupCard", "CQ_setGroupLeave", "CQ_setDiscussLeave"]

/-- Return type, first parameter and last parameter of the stub named `n`. -/
def stubShape (n : Token) : Option (List Token × Option Param × Option Param) :=
  (findApi n).map fun a =>
    (a.stub.ret, (a.stub.params.getD []).head?, (a.stub.params.getD []).getLast?)

/-- Return type and parameter types of the stub named `n`, and the parameter
types of its slot. -/
def signature (n : Token) :
    Option (List Token × Option (List (List Token)) × Option (List (List Token))) :=
  (findApi n).map fun a => (a.stub.ret, a.stub.paramTypes, a.slot.paramTypes)

/-- The API `b` has the return type of `a` and the parameters of `a` followed
by the one parameter `p`, in the stub and in the slot. -/
def extendsBy (a b : Api) (p : Param) : Bool :=
  b.stub.ret == a.stub.ret && b.slot.ret == a.slot.ret &&
  a.stub.params.isSome &&
  b.stub.params == a.stub.params.map (fun ps => ps ++ [p]) &&
  a.slot.params.isSome &&
  b.slot.params == a.slot.params.map (fun ps => ps ++ [p])

/-! ## The macros -/

/-- The replacement list of `CQAPI`, token by token. -/
theorem CQAPI_body :
    CQAPI.body =
      ["RetType", "(", "__stdcall", "*", "Name", "##", "_Ptr", ")", "(",
       "int32_t", "ac", ",", "__VA_ARGS__", ")", ";",
       "RetType", "Name", "(", "__VA_ARGS__", ")"] := by
  decide!

/-- The expansion of `CQAPI(ret, name, va...)` for any arguments: the slot
declaration, whose parameter list is `int32_t ac ,` followed by the variable
arguments, then the stub declaration, whose parameter list is the variable
arguments. -/
theorem substitute_CQAPI (ret : List Token) (name : Token) (va : List (List Token)) :
    substitute CQAPI (ret :: [name] :: va) =
      ret ++ ["(", "__stdcall", "*", name ++ "_Ptr", ")", "(", "int32_t", "ac", ","] ++
        List.intercalate [","] va ++ [")", ";"] ++
      ret ++ [name, "("] ++ List.intercalate [","] va ++ [")"] := by
  unfold substitute
  rw [CQAPI_body]
  simp [substituteAux, bindArgs, operand, paste, CQAPI, List.lookup]

/-- Without variable arguments the comma of the replacement list is followed
directly by the closing parenthesis, whatever the return type and the name. -/
theorem substitute_CQAPI_no_arguments (ret : List Token) (name : Token) :
    substitute CQAPI [ret, [name]] =
      ret ++ ["(", "__stdcall", "*", name ++ "_Ptr", ")", "(", "int32_t", "ac", ",", ")", ";"] ++
      ret ++ [name, "(", ")"] := by
  rw [substitute_CQAPI]
  simp [List.intercalate]

/-- The tokens `int32_t ac ,` are not a parameter list, and `int32_t ac` is
the list of the one parameter `ac`. -/
theorem parseParams_trailing_comma :
    parseParams ["int32_t", "ac", ","] = none ∧
    parseParams ["int32_t", "ac"] = some [acParam] := by
  decide!

/-- Every `CQAPI` line of the header makes exactly two declarations, a
function-pointer slot `Name_Ptr` and a stub `Name` with the same return type;
the tokens of the slot's parameter list are `int32_t ac ,` followed by the
tokens of the stub's parameter list; and when the stub has parameters, the
slot's parameters are `int32_t ac` followed by the stub's parameters. -/
theorem CQAPI_declares_slot_and_stub :
    apiLines.length = 32 ∧ apis.length = 32 ∧
    apiLines.map declsOfLine = apis.map (fun a => [some a.slot, some a.stub]) ∧
    ∀ a ∈ apis,
      a.slot.pointer = true ∧ a.stub.pointer = false ∧
      a.slot.name = a.stub.name ++ "_Ptr" ∧ a.slot.ret = a.stub.ret ∧
      a.slot.paramToks = ["int32_t", "ac", ","] ++ a.stub.paramToks ∧
      a.stub.params.isSome = true ∧
      (a.stub.paramToks ≠ [] →
        a.slot.params = a.stub.params.map (fun ps => acParam :: ps)) := by
  decide!

/-! ## The claims -/

/-- Claim C1, at the APIs declared without parameters.  `__VA_ARGS__` is then
empty and the comma written before it in the replacement list stays: the
line `CQAPI(char *, CQ_getCookies);` becomes
`char *(__stdcall *CQ_getCookies_Ptr)(int32_t ac, ); char * CQ_getCookies();`.
For the five such APIs the tokens of the slot's parameter list are
`int32_t ac ,`, which is not a parameter list (so in particular not the list
of the single parameter `ac`), while the stub's list is the empty one. -/
theorem C1_slot_of_parameterless_api :
    expandLine (lex "CQAPI(char *, CQ_getCookies);") =
      lex "char *(__stdcall *CQ_getCookies_Ptr)(int32_t ac, ); char * CQ_getCookies();" ∧
    (apis.filter fun a => a.stub.paramToks.isEmpty).map
        (fun a => (a.stub.name, a.slot.paramToks, a.slot.params, a.stub.params)) =
      [("CQ_getCookies", ["int32_t", "ac", ","], none, some []),
       ("CQ_getCsrfToken", ["int32_t", "ac", ","], none, some []),
       ("CQ_getAppDirectory", ["int32_t", "ac", ","], none, some []),
       ("CQ_getLoginQQ", ["int32_t", "ac", ","], none, some []),
       ("CQ_getLoginNick", ["int32_t", "ac", ","], none, some [])] ∧
    ∀ a ∈ apis, a.stub.paramToks = [] → a.slot.params ≠ some [acParam] := by
  decide!

/-- Claim C2 as stated fails: the header declares three entry points with
external linkage, not two, and one of them, `AppInfo`, returns `char *`. -/
theorem C2_entry_points_counterexample :
    ¬ (externDecls.map Decl.name = ["Initialize", "EVENT_ON_ENABLE"] ∧
       ∀ d ∈ externDecls, d.ret = int32_t) := by
  decide!

/-- Claim C2, amended.  The entry points declared with `CQEVENT` are exactly
two, `Initialize` with one `int32_t` parameter and `EVENT_ON_ENABLE` with
none, and each returns `int32_t`; the entry points with external linkage are
these two and `AppInfo`, which has no parameters and returns `char *`. -/
theorem C2_event_entry_points :
    eventDecls.map (fun d => d.map fun d => (d.name, d.ret, d.paramTypes)) =
      [some ("Initialize", int32_t, some [int32_t]),
       some ("EVENT_ON_ENABLE", int32_t, some [])] ∧
    (∀ d ∈ eventDecls.filterMap id, d.ret = int32_t ∧ d.external = true) ∧
    externDecls.map (fun d => (d.name, d.ret, d.paramTypes)) =
      [("AppInfo", charPtr, some []),
       ("Initialize", int32_t, some [int32_t]),
       ("EVENT_ON_ENABLE", int32_t, some [])] := by
  refine ⟨?_, ?_, ?_⟩ <;> decide!

/-- Claim C3, evaluated.  All 32 APIs return `int32_t`, `int64_t` or `char *`
and their stubs take between 0 and 4 parameters; the slot of an API with
parameters takes one more, between 2 and 5; but the slots of the five APIs
without parameters have no well-formed parameter list, hence no parameter
count (for none of them is it the one-parameter list). -/
theorem C3_return_types_and_arities :
    apis.length = 32 ∧
    (∀ a ∈ apis,
      a.stub.ret ∈ [int32_t, int64_t, charPtr] ∧ a.slot.ret = a.stub.ret ∧
      a.stub.params.map List.length ∈ [some 0, some 1, some 2, some 3, some 4] ∧
      (a.stub.paramToks ≠ [] →
        a.slot.params.map List.length = a.stub.params.map (fun ps => ps.length + 1) ∧
        a.slot.params.map List.length ∈ [some 2, some 3, some 4, some 5])) ∧
    (apis.filter fun a => a.slot.params.map List.length == none).map
        (fun a => a.stub.name) =
      ["CQ_getCookies", "CQ_getCsrfToken", "CQ_getAppDirectory", "CQ_getLoginQQ",
       "CQ_getLoginNick"] := by
  decide!

/-- Claim C4.  The header makes 67 declarations (3 entry points, 32 slots,
32 stubs), 155 parameter declarations occur in their parameter lists, and
every one of them has type `int32_t`, `int64_t` or `char *` (each of the
three types occurs). -/
theorem C4_parameter_types :
    allDecls.length = 67 ∧ (allDecls.filterMap id).length = 67 ∧
    externDecls.length = 3 ∧ apis.length = 32 ∧
    allDecls.filterMap id = externDecls ++ (apis.map fun a => [a.slot, a.stub]).flatten ∧
    ((allDecls.filterMap id).map fun d => d.declaredParams.length).sum = 155 ∧
    (∀ d ∈ allDecls.filterMap id, ∀ p ∈ d.declaredParams,
      p.map Param.ty ∈ [some int32_t, some int64_t, some charPtr]) ∧
    (∀ d ∈ allDecls.filterMap id, ∀ p ∈ d.params.getD [],
      p.ty ∈ [int32_t, int64_t, charPtr]) ∧
    ∀ t ∈ [int32_t, int64_t, charPtr],
      ∃ d ∈ allDecls.filterMap id, ∃ p ∈ d.declaredParams, p.map Param.ty = some t := by
  refine ⟨?_, ?_, ?_, ?_, ?_, ?_, ?_, ?_, ?_⟩ <;> decide!

/-- Claim C5.  The three entry points with external linkage (`AppInfo`,
`Initialize`, `EVENT_ON_ENABLE`) and the 32 function-pointer slots `Name_Ptr`
are all declared `__stdcall`. -/
theorem C5_stdcall :
    externDecls.map Decl.name = ["AppInfo", "Initialize", "EVENT_ON_ENABLE"] ∧
    (∀ d ∈ externDecls, d.stdcall = true) ∧
    apis.length = 32 ∧
    (∀ a ∈ apis, a.slot.name = a.stub.name ++ "_Ptr" ∧ a.slot.pointer = true ∧
      a.slot.stdcall = true) ∧
    ∀ d ∈ allDecls.filterMap id, d.external = true ∨ d.pointer = true → d.stdcall = true := by
  decide!

/-- Claim C6.  `CQ_sendPrivateMsg`, `CQ_sendGroupMsg` and `CQ_sendDiscussMsg`
have the same signature, `int32_t (int64_t, char *)`, and `CQ_deleteMsg` is
`int32_t (int64_t)`; their slots take the `int32_t` count in front. -/
theorem C6_message_signatures :
    signature "CQ_sendPrivateMsg" =
      some (int32_t, some [int64_t, charPtr], some [int32_t, int64_t, charPtr]) ∧
    signature "CQ_sendGroupMsg" = signature "CQ_sendPrivateMsg" ∧
    signature "CQ_sendDiscussMsg" = signature "CQ_sendPrivateMsg" ∧
    signature "CQ_deleteMsg" =
      some (int32_t, some [int64_t], some [int32_t, int64_t]) := by
  refine ⟨?_, ?_, ?_, ?_⟩ <;> decide!

/-- Claim C7.  The APIs `X` for which `XV2` is declared are `CQ_sendLike`,
`CQ_setGroupAddRequest` and `CQ_getGroupMemberInfo`; each `XV2` has the return
type of `X` and the parameters of `X` followed by one more: `int32_t times`,
`char *reason` and the `int32_t` cache flag respectively. -/
theorem C7_v2_variants :
    ((apis.filter fun a => (findApi (a.stub.name ++ "V2")).isSome).map
        fun a => a.stub.name) =
      ["CQ_sendLike", "CQ_setGroupAddRequest", "CQ_getGroupMemberInfo"] ∧
    (∀ a ∈ apis, ∀ b ∈ apis, b.stub.name = a.stub.name ++ "V2" →
      b.stub.ret = a.stub.ret ∧
      (b.stub.params.getD []).dropLast = a.stub.params.getD [] ∧
      (b.stub.params.getD []).length = (a.stub.params.getD []).length + 1) ∧
    ((findApi "CQ_sendLike").bind fun a => (findApi "CQ_sendLikeV2").map fun b =>
        extendsBy a b { ty := int32_t, name := some "times" }) = some true ∧
    ((findApi "CQ_setGroupAddRequest").bind fun a =>
        (findApi "CQ_setGroupAddRequestV2").map fun b =>
          extendsBy a b { ty := charPtr, name := some "reason" }) = some true ∧
    ((findApi "CQ_getGroupMemberInfo").bind fun a =>
        (findApi "CQ_getGroupMemberInfoV2").map fun b =>
          extendsBy a b { ty := int32_t, name := some "不使用缓存" }) = some true := by
  decide!

/-- Claim C8.  Each of the ten moderation APIs returns `int32_t` and has the
64-bit group or discussion number as its first parameter; the two timed bans
end with the 64-bit `BanTime`. -/
theorem C8_moderation_signatures :
    moderationApis.length = 10 ∧
    (∀ n ∈ moderationApis,
      (stubShape n).map (fun s => (s.1, s.2.1)) ∈
        [some (int32_t, some { ty := int64_t, name := some "GroupNum" }),
         some (int32_t, some { ty := int64_t, name := some "DiscussNum" })]) ∧
    (∀ n ∈ ["CQ_setGroupBan", "CQ_setGroupAnonymousBan"],
      n ∈ moderationApis ∧
      (stubShape n).map (fun s => s.2.2) =
        some (some { ty := int64_t, name := some "BanTime" })) := by
  decide!

/-- Claim C9.  The 67 names the header declares (3 entry points, 32 slots,
32 stubs) are pairwise distinct. -/
theorem C9_names_distinct :
    ((allDecls.filterMap id).map Decl.name).length = 67 ∧
    ((allDecls.filterMap id).map Decl.name).Nodup ∧
    (externDecls.map Decl.name).length = 3 ∧
    (apis.map fun a => a.stub.name).length = 32 ∧
    (apis.map fun a => a.slot.name).length = 32 ∧
    (externDecls.map Decl.name ++ (apis.map fun a => a.stub.name) ++
        (apis.map fun a => a.slot.name)).Nodup ∧
    ∀ a ∈ apis, ∀ b ∈ apis, a.slot.name ≠ b.stub.name := by
  decide!

/-- Claim C10.  An API that returns `char *` is named `CQ_get...`; an API not
named `CQ_get...` returns `int32_t`; the `CQ_get...` APIs that return an
integer are `CQ_getCsrfToken` (`int32_t`) and `CQ_getLoginQQ` (`int64_t`), and
`CQ_getLoginQQ` is the only API returning `int64_t`. -/
theorem C10_return_type_by_name :
    (∀ a ∈ apis, a.stub.ret = charPtr → beginsWith "CQ_get" a.stub.name = true) ∧
    (∀ a ∈ apis, beginsWith "CQ_get" a.stub.name = false → a.stub.ret = int32_t) ∧
    ((apis.filter fun a => beginsWith "CQ_get" a.stub.name && a.stub.ret != charPtr).map
        fun a => (a.stub.name, a.stub.ret)) =
      [("CQ_getCsrfToken", int32_t), ("CQ_getLoginQQ", int64_t)] ∧
    ((apis.filter fun a => a.stub.ret == int64_t).map fun a => a.stub.name) =
      ["CQ_getLoginQQ"] ∧
    ((apis.filter fun a => !beginsWith "CQ_get" a.stub.name).map fun a => a.stub.name).length
      = 21 := by
  decide!

end CQ
